import Mathlib

/-!
Shallow embedding of the AfterClasses backend (`src/server.js`, with the two
variant files `src/unnamed/part_000` and `src/unnamed/part_001` where a claim
cites them).  The relational store is modelled as lists of rows; each HTTP
route or socket handler becomes a Lean function from the store (plus the
request data and the current time in milliseconds) to the new store and an
observable outcome.  Query results follow the SQL of the source: `DELETE`
is `List.filter` on the negated predicate, `INSERT` appends, `SELECT ...
LIMIT 1` picks the first row of the requested ordering.
-/

namespace AfterClasses

/-- A row of the `otps` table: `(id, email, otp, created_at, expires_at)`.
Times are milliseconds since epoch, as in the JS `Date.now()` arithmetic. -/
structure OtpRow where
  id : Nat
  email : String
  otp : String
  createdAt : Nat
  expiresAt : Nat
  deriving Repr, DecidableEq

/-- A row of the `users` table; only the columns the modelled routes read:
`id`, `email` and the coin balance (`coins` is a SQL integer, so `Int`). -/
structure UserRow where
  id : Nat
  email : String
  coins : Int
  deriving Repr, DecidableEq

/-- A row of the `approaches` table. -/
structure ApproachRow where
  fromUserId : Nat
  toUserId : Nat
  requestLine : String
  deriving Repr, DecidableEq

/-- A row of the `messages` table: `(id, sender_id, receiver_id, message,
created_at)`. -/
structure MessageRow where
  id : Nat
  senderId : String
  receiverId : String
  message : String
  createdAt : Nat
  deriving Repr, DecidableEq

/-- The relational store: the four tables the modelled routes touch, plus
counters supplying the serial `id` columns. -/
structure DB where
  users : List UserRow
  otps : List OtpRow
  approaches : List ApproachRow
  messages : List MessageRow
  nextOtpId : Nat
  nextMsgId : Nat
  deriving Repr, DecidableEq

/-- The JSON body of a successful `POST /api/auth/send-otp` response.
`otp` is `none` when the response carries no `otp` field (`server.js`),
`some code` when a variant echoes the generated code back. -/
structure SendOtpResponse where
  success : Bool
  message : String
  isNewUser : Bool
  otp : Option String
  deriving Repr, DecidableEq

/-- Outcome of a send-otp request: a JSON success body, or an HTTP error
status with its message. -/
inductive SendOtpOutcome where
  | ok (resp : SendOtpResponse)
  | err (status : Nat) (message : String)
  deriving Repr, DecidableEq

/-- Whether a send-otp outcome is the success response. -/
def SendOtpOutcome.isOk : SendOtpOutcome → Bool
  | .ok _ => true
  | .err _ _ => false

/-- The `otps` row a send-otp call inserts:
`INSERT INTO otps (email, otp, expires_at)` with the serial id, the
generated code, `created_at = now` and `expires_at = now + 5*60*1000`. -/
def issuedRow (db : DB) (now : Nat) (email code : String) : OtpRow :=
  { id := db.nextOtpId, email := email, otp := code,
    createdAt := now, expiresAt := now + 5 * 60 * 1000 }

/-- The store effect shared by every send-otp variant:
`DELETE FROM otps WHERE email = $1` followed by the `INSERT` above. -/
def dbAfterIssue (db : DB) (now : Nat) (email code : String) : DB :=
  { db with
    otps := db.otps.filter (fun r => r.email != email) ++
            [issuedRow db now email code],
    nextOtpId := db.nextOtpId + 1 }

/-- Has the email a `users` row already?  `existingUser.rows.length === 0`
read before any mutation; negated it is the `isNewUser` of the response. -/
def isNewEmail (db : DB) (email : String) : Bool :=
  (db.users.filter (fun u => u.email == email)).isEmpty

/-- `POST /api/auth/send-otp` of `src/server.js` (lines 47-91).
`now` is `Date.now()`, `code` the value produced by the `Math.random`
expression, `deliveryOk` whether `transporter.sendMail` resolves.  The
handler: rejects an empty email with 400; reads whether a user row exists
(for `isNewUser`); deletes every `otps` row for the email and inserts the
new one with `expires_at = now + 5*60*1000`; then *awaits* the email send,
so a rejected send falls into the catch and answers 500 (the stored row is
not rolled back).  On success the JSON body has no `otp` field. -/
def sendOtp (db : DB) (now : Nat) (email code : String) (deliveryOk : Bool) :
    DB × SendOtpOutcome :=
  if email = "" then
    (db, .err 400 "Email is required")
  else if deliveryOk then
    (dbAfterIssue db now email code,
     .ok { success := true,
           message := "OTP sent successfully to your email!",
           isNewUser := isNewEmail db email, otp := none })
  else
    (dbAfterIssue db now email code,
     .err 500 "Failed to send email. Check SMTP settings.")

/-- `POST /api/auth/send-otp` of `src/unnamed/part_000` (lines 51-97).
Identical store effect, but `transporter.sendMail` is fire-and-forget
(`.then`/`.catch`, never awaited), so `deliveryOk` cannot influence the
response, and the JSON body echoes the generated code in an `otp` field. -/
def sendOtpDemo (db : DB) (now : Nat) (email code : String)
    (deliveryOk : Bool) : DB × SendOtpOutcome :=
  if email = "" then
    (db, .err 400 "Email is required")
  else
    let _ := deliveryOk
    (dbAfterIssue db now email code,
     .ok { success := true,
           message := "OTP sent! (Demo Mode: Check Popup)",
           isNewUser := isNewEmail db email, otp := some code })

/-- `SELECT * FROM otps WHERE email = $1 ORDER BY created_at DESC LIMIT 1`:
among the rows for `email`, the one with the greatest `created_at`
(the earliest such row when several tie). -/
def pickLatest : List OtpRow → Option OtpRow
  | [] => none
  | r :: rs =>
    match pickLatest rs with
    | none => some r
    | some b => if b.createdAt > r.createdAt then some b else some r

/-- The most recently issued code row for an identity, if any. -/
def latestOtpFor (otps : List OtpRow) (email : String) : Option OtpRow :=
  pickLatest (otps.filter (fun r => r.email == email))

/-- Outcome of `POST /api/auth/verify-otp`: one of the three 400 errors, or
the success body (with the user row when the identity already has one). -/
inductive VerifyOutcome where
  | notFound
  | expired
  | mismatch
  | okNew
  | okExisting (user : UserRow)
  deriving Repr, DecidableEq

/-- Whether a verify outcome is one of the two success bodies. -/
def VerifyOutcome.isOk : VerifyOutcome → Bool
  | .okNew => true
  | .okExisting _ => true
  | _ => false

/-- `POST /api/auth/verify-otp` of `src/server.js` (lines 94-118).
Fetches the latest code row for the email (`notFound` when none), answers
`expired` when `now` strictly exceeds `expires_at`, `mismatch` when the
submitted string differs from the stored one (`!==`, exact equality), and
otherwise deletes the consumed row (`DELETE FROM otps WHERE id = $1`) and
reports whether the email already has a user row. -/
def verifyOtp (db : DB) (now : Nat) (email submitted : String) :
    DB × VerifyOutcome :=
  match latestOtpFor db.otps email with
  | none => (db, .notFound)
  | some rec =>
    if now > rec.expiresAt then (db, .expired)
    else if rec.otp ≠ submitted then (db, .mismatch)
    else
      let db2 : DB := { db with otps := db.otps.filter (fun r => r.id != rec.id) }
      match db.users.find? (fun u => u.email == email) with
      | none => (db2, .okNew)
      | some u => (db2, .okExisting u)

/-- The live (unexpired) code rows an identity holds at time `now`:
the rows the verify route would not reject as expired. -/
def liveOtpsFor (otps : List OtpRow) (email : String) (now : Nat) :
    List OtpRow :=
  otps.filter (fun r => r.email == email && now ≤ r.expiresAt)

/-- Outcome of `POST /api/match/approach`: success, the 400 insufficient
balance answer, or the 500 of the catch block (reached e.g. when
`userRes.rows[0]` is undefined because no user row matched). -/
inductive ApproachOutcome where
  | ok
  | insufficientBalance
  | internalError
  deriving Repr, DecidableEq

/-- `POST /api/match/approach` of `src/server.js` (lines 152-166).
Reads the coin balance of the sender (`SELECT coins ... WHERE id = $1`, first
row); a missing row makes `rows[0].coins` throw, landing in the catch
(500).  A balance below 10 answers 400 without touching the store.
Otherwise `UPDATE users SET coins = coins - 10 WHERE id = $1` debits every
row with that id and the approach row is inserted. -/
def approach (db : DB) (fromUserId toUserId : Nat) (requestLine : String) :
    DB × ApproachOutcome :=
  match db.users.find? (fun u => u.id == fromUserId) with
  | none => (db, .internalError)
  | some u =>
    if u.coins < 10 then (db, .insufficientBalance)
    else
      let db2 : DB :=
        { db with
          users := db.users.map (fun w =>
            if w.id == fromUserId then { w with coins := w.coins - 10 } else w),
          approaches := db.approaches ++
            [{ fromUserId := fromUserId, toUserId := toUserId,
               requestLine := requestLine }] }
      (db2, .ok)

/-- The canonical chat room key: sort the pair, join with an underscore of the
`join_room` and `send_message` handlers (`src/server.js` lines 182, 188).
The default JavaScript sort on two strings orders them lexicographically, so
the smaller identity comes first. -/
def roomKey (a b : String) : String :=
  if b < a then b ++ "_" ++ a else a ++ "_" ++ b

/-- `onlineUsers.set(userId, socket.id)`: a JS `Map.set`, overwriting the
value in place when the key exists and appending otherwise (insertion
order is preserved). -/
def mapSet (m : List (String × String)) (key value : String) :
    List (String × String) :=
  match m with
  | [] => [(key, value)]
  | (k, v) :: rest =>
    if k == key then (k, value) :: rest else (k, v) :: mapSet rest key value

/-- Process state of the socket.io layer: the `onlineUsers` map (identity to
socket id), the room subscriptions of each socket (`socket.join`), and the
store. -/
structure RelayState where
  onlineUsers : List (String × String)
  rooms : List (String × String)
  db : DB
  deriving Repr, DecidableEq

/-- An observable emission of a socket handler: the `online_users`
broadcast, a `receive_message` delivery to one subscribed socket, or a
`console.log` line. -/
inductive Emit where
  | onlineUsersBroadcast (users : List String)
  | receiveMessage (socketId : String) (row : MessageRow)
  | logLine (text : String)
  deriving Repr, DecidableEq

/-- The `user_connected` handler (`src/server.js` lines 176-179): records
the socket of the identity in `onlineUsers` and broadcasts the full key set to
everyone. -/
def handleUserConnected (st : RelayState) (userId socketId : String) :
    RelayState × List Emit :=
  let m := mapSet st.onlineUsers userId socketId
  ({ st with onlineUsers := m },
   [.onlineUsersBroadcast (m.map (fun p => p.1))])

/-- The `join_room` handler (`src/server.js` lines 181-184): subscribes the
socket to the canonical room of the two identities. -/
def handleJoinRoom (st : RelayState) (socketId userId otherUserId : String) :
    RelayState × List Emit :=
  ({ st with rooms := st.rooms ++ [(socketId, roomKey userId otherUserId)] },
   [])

/-- The `send_message` handler (`src/server.js` lines 186-199): computes
the canonical room, inserts the message row (`RETURNING *` supplies the
serial id and `created_at = now`), and on successful persistence emits
`receive_message` with the saved row to every socket subscribed to the
room.  When the insert fails (`dbOk = false`) nothing is stored or
broadcast; the error is only logged. -/
def handleSendMessage (st : RelayState) (senderId receiverId body : String)
    (now : Nat) (dbOk : Bool) : RelayState × List Emit :=
  let room := roomKey senderId receiverId
  if dbOk then
    let row : MessageRow :=
      { id := st.db.nextMsgId, senderId := senderId, receiverId := receiverId,
        message := body, createdAt := now }
    let db2 : DB :=
      { st.db with messages := st.db.messages ++ [row],
                   nextMsgId := st.db.nextMsgId + 1 }
    ({ st with db := db2 },
     (st.rooms.filter (fun p => p.2 == room)).map
       (fun p => .receiveMessage p.1 row))
  else
    (st, [.logLine "Chat Error"])

/-- The `disconnect` handler (`src/server.js` lines 201-203): only
`console.log` of a fixed line — no state change, no broadcast. -/
def handleDisconnect (st : RelayState) : RelayState × List Emit :=
  (st, [.logLine "User Disconnected"])

/-- Does a pair of identities match a message row in either direction?
The `WHERE` clause of the history query. -/
def pairMatch (r : MessageRow) (userId otherUserId : String) : Bool :=
  (r.senderId == userId && r.receiverId == otherUserId) ||
  (r.senderId == otherUserId && r.receiverId == userId)

/-- Insert a row into a list ordered by ascending `created_at`, keeping it
before later-arriving rows of equal time. -/
def insertByTime (r : MessageRow) : List MessageRow → List MessageRow
  | [] => [r]
  | x :: xs =>
    if r.createdAt ≤ x.createdAt then r :: x :: xs else x :: insertByTime r xs

/-- `ORDER BY created_at ASC`: stable sort of the rows by creation time. -/
def sortByTime : List MessageRow → List MessageRow
  | [] => []
  | x :: xs => insertByTime x (sortByTime xs)

/-- `GET /api/chat/history/:userId/:otherUserId` of `src/server.js`
(lines 206-220): every message row matching the pair in either direction,
ordered by `created_at` ascending, with no `LIMIT`. -/
def history (db : DB) (userId otherUserId : String) : List MessageRow :=
  sortByTime (db.messages.filter (fun r => pairMatch r userId otherUserId))

/-- The empty store. -/
def dbEmpty : DB :=
  { users := [], otps := [], approaches := [], messages := [],
    nextOtpId := 0, nextMsgId := 0 }

/-!  Helper lemmas. -/

theorem filter_swap {α : Type} (p q : α → Bool) (l : List α) :
    (l.filter p).filter q = (l.filter q).filter p := by
  induction l with
  | nil => rfl
  | cons x xs ih =>
    by_cases hp : p x = true <;> by_cases hq : q x = true <;>
      simp [List.filter_cons, hp, hq, ih]

theorem filter_of_deleted (l : List OtpRow) (email : String)
    (q : OtpRow → Bool) (hq : ∀ r, q r = true → r.email = email) :
    (l.filter (fun r => r.email != email)).filter q = [] := by
  induction l with
  | nil => rfl
  | cons x xs ih =>
    by_cases hx : x.email = email
    · simp [List.filter_cons, hx, ih]
    · have hqx : q x = false := by
        cases h : q x
        · rfl
        · exact absurd (hq x h) hx
      simp [List.filter_cons, hx, hqx, ih]

theorem otps_after_issue (db : DB) (now : Nat) (email code : String) :
    (dbAfterIssue db now email code).otps.filter
        (fun r => r.email == email) = [issuedRow db now email code] := by
  unfold dbAfterIssue
  rw [List.filter_append,
      filter_of_deleted _ _ _ (fun r hr => by simpa using hr)]
  simp [issuedRow]

theorem live_after_issue (db : DB) (now t : Nat) (email code : String)
    (ht : t ≤ now + 5 * 60 * 1000) :
    liveOtpsFor (dbAfterIssue db now email code).otps email t =
      [issuedRow db now email code] := by
  unfold liveOtpsFor dbAfterIssue
  rw [List.filter_append,
      filter_of_deleted _ _ _ (fun r hr => by
        simp only [Bool.and_eq_true, beq_iff_eq] at hr
        exact hr.1)]
  simp [issuedRow, ht]

/-!  C1. -/

/-- C1: a successful send-otp call leaves exactly one code row for the
identity — the freshly inserted one, which is live at issue time — no
matter how many code rows (from earlier calls) the store held before. -/
theorem sendOtp_single_live_code (db : DB) (now : Nat) (email code : String)
    (h : email ≠ "") :
    (sendOtp db now email code true).2.isOk = true ∧
    (sendOtp db now email code true).1.otps.filter
        (fun r => r.email == email) = [issuedRow db now email code] ∧
    liveOtpsFor (sendOtp db now email code true).1.otps email now =
      [issuedRow db now email code] := by
  have hsend : sendOtp db now email code true =
      (dbAfterIssue db now email code,
       .ok { success := true,
             message := "OTP sent successfully to your email!",
             isNewUser := isNewEmail db email, otp := none }) := by
    simp [sendOtp, h]
  rw [hsend]
  exact ⟨rfl, otps_after_issue db now email code,
         live_after_issue db now now email code (Nat.le_add_right _ _)⟩

/-- Witness for C1 at a concrete input: issuing twice in sequence for the
same identity still leaves exactly the one row of the second call. -/
theorem sendOtp_single_live_code_witness :
    (sendOtp (sendOtp dbEmpty 0 "a@x.edu" "111111" true).1 1000 "a@x.edu"
        "222222" true).1.otps.filter (fun r => r.email == "a@x.edu") =
      [issuedRow (sendOtp dbEmpty 0 "a@x.edu" "111111" true).1 1000
        "a@x.edu" "222222"] :=
  (sendOtp_single_live_code (sendOtp dbEmpty 0 "a@x.edu" "111111" true).1
    1000 "a@x.edu" "222222" (by decide)).2.1

/-!  Lemmas about the verify route, shared by C2, C3 and C10. -/

theorem latest_after_issue (db : DB) (now : Nat) (email code : String) :
    latestOtpFor (dbAfterIssue db now email code).otps email =
      some (issuedRow db now email code) := by
  unfold latestOtpFor
  rw [otps_after_issue]
  rfl

theorem verifyOtp_notFound (db : DB) (now : Nat) (email submitted : String)
    (h : latestOtpFor db.otps email = none) :
    verifyOtp db now email submitted = (db, .notFound) := by
  simp [verifyOtp, h]

theorem verifyOtp_expired (db : DB) (now : Nat) (email submitted : String)
    (rec : OtpRow) (hrec : latestOtpFor db.otps email = some rec)
    (h : now > rec.expiresAt) :
    verifyOtp db now email submitted = (db, .expired) := by
  simp [verifyOtp, hrec, h]

theorem verifyOtp_mismatch (db : DB) (now : Nat) (email submitted : String)
    (rec : OtpRow) (hrec : latestOtpFor db.otps email = some rec)
    (hexp : ¬ now > rec.expiresAt) (hne : rec.otp ≠ submitted) :
    verifyOtp db now email submitted = (db, .mismatch) := by
  simp [verifyOtp, hrec, hexp, hne]

theorem verifyOtp_success (db : DB) (now : Nat) (email : String)
    (rec : OtpRow) (hrec : latestOtpFor db.otps email = some rec)
    (hexp : ¬ now > rec.expiresAt) :
    (verifyOtp db now email rec.otp).1 =
      { db with otps := db.otps.filter (fun r => r.id != rec.id) } ∧
    (verifyOtp db now email rec.otp).2.isOk = true := by
  cases hfind : db.users.find? (fun u => u.email == email) with
  | none =>
    refine ⟨?_, ?_⟩ <;>
      simp [verifyOtp, hrec, hexp, hfind, VerifyOutcome.isOk]
  | some u =>
    refine ⟨?_, ?_⟩ <;>
      simp [verifyOtp, hrec, hexp, hfind, VerifyOutcome.isOk]

theorem otps_after_consume (db : DB) (now : Nat) (email code : String) :
    ((dbAfterIssue db now email code).otps.filter
        (fun r => r.id != (issuedRow db now email code).id)).filter
        (fun r => r.email == email) = [] := by
  rw [filter_swap, otps_after_issue]
  simp

/-!  C2. -/

/-- C2: verification is single-use.  Starting from any store, issue a code
and verify it with the correct value before expiry: the call succeeds; an
immediately following call with the same code answers `notFound` and
leaves the store unchanged. -/
theorem verifyOtp_single_use (db : DB) (now now1 now2 : Nat)
    (email code : String) (hemail : email ≠ "")
    (h1 : now1 ≤ now + 5 * 60 * 1000) :
    (verifyOtp (sendOtp db now email code true).1 now1 email code).2.isOk =
      true ∧
    verifyOtp (verifyOtp (sendOtp db now email code true).1 now1 email
        code).1 now2 email code =
      ((verifyOtp (sendOtp db now email code true).1 now1 email code).1,
       .notFound) := by
  have hsend : (sendOtp db now email code true).1 =
      dbAfterIssue db now email code := by
    simp [sendOtp, hemail]
  have hlatest := latest_after_issue db now email code
  have hexp : ¬ now1 > (issuedRow db now email code).expiresAt := by
    simp only [issuedRow, gt_iff_lt, not_lt]
    exact h1
  have hsucc := verifyOtp_success (dbAfterIssue db now email code) now1
    email (issuedRow db now email code) hlatest hexp
  have hcode : (issuedRow db now email code).otp = code := rfl
  rw [hcode] at hsucc
  rw [hsend]
  refine ⟨hsucc.2, ?_⟩
  rw [hsucc.1]
  apply verifyOtp_notFound
  show latestOtpFor ((dbAfterIssue db now email code).otps.filter
      (fun r => r.id != (issuedRow db now email code).id)) email = none
  unfold latestOtpFor
  rw [otps_after_consume db now email code]
  rfl

/-- Witness for C2 at a concrete input. -/
theorem verifyOtp_single_use_witness :
    (verifyOtp (sendOtp dbEmpty 0 "a@x.edu" "123456" true).1 1000 "a@x.edu"
        "123456").2.isOk = true :=
  (verifyOtp_single_use dbEmpty 0 1000 2000 "a@x.edu" "123456" (by decide)
    (by decide)).1

/-!  C3. -/

/-- C3: a code expires five minutes after issue, and verification fails
with exactly one of three errors in precedence order: `notFound` when no
code row exists for the identity, else `expired` when the current time
exceeds the expiry (whatever code was submitted), else `mismatch` when the
submitted string differs from the stored one; otherwise it succeeds. -/
theorem verifyOtp_error_precedence (db : DB) (now : Nat)
    (email submitted : String) :
    (∀ d : DB, ∀ n : Nat, ∀ e c : String,
      (issuedRow d n e c).expiresAt = (issuedRow d n e c).createdAt +
        5 * 60 * 1000) ∧
    (latestOtpFor db.otps email = none →
      verifyOtp db now email submitted = (db, .notFound)) ∧
    (∀ rec : OtpRow, latestOtpFor db.otps email = some rec →
      now > rec.expiresAt →
      verifyOtp db now email submitted = (db, .expired)) ∧
    (∀ rec : OtpRow, latestOtpFor db.otps email = some rec →
      ¬ now > rec.expiresAt → rec.otp ≠ submitted →
      verifyOtp db now email submitted = (db, .mismatch)) ∧
    (∀ rec : OtpRow, latestOtpFor db.otps email = some rec →
      ¬ now > rec.expiresAt → rec.otp = submitted →
      (verifyOtp db now email submitted).2.isOk = true) :=
  ⟨fun _ _ _ _ => rfl,
   fun h => verifyOtp_notFound db now email submitted h,
   fun rec hrec h => verifyOtp_expired db now email submitted rec hrec h,
   fun rec hrec hexp hne =>
     verifyOtp_mismatch db now email submitted rec hrec hexp hne,
   fun rec hrec hexp heq =>
     heq ▸ (verifyOtp_success db now email rec hrec hexp).2⟩

/-- The single stored code row used by concrete verify scenarios. -/
def otpRowA : OtpRow :=
  { id := 0, email := "a@x.edu", otp := "123456",
    createdAt := 0, expiresAt := 300000 }

/-- A store holding exactly `otpRowA`. -/
def dbWithOtp : DB := { dbEmpty with otps := [otpRowA] }

/-- Witness for C3: all four branches at concrete inputs. -/
theorem verifyOtp_error_precedence_witness :
    verifyOtp dbEmpty 0 "a@x.edu" "123456" = (dbEmpty, .notFound) ∧
    verifyOtp dbWithOtp 300001 "a@x.edu" "123456" = (dbWithOtp, .expired) ∧
    verifyOtp dbWithOtp 100 "a@x.edu" "999999" = (dbWithOtp, .mismatch) ∧
    (verifyOtp dbWithOtp 100 "a@x.edu" "123456").2.isOk = true :=
  ⟨(verifyOtp_error_precedence dbEmpty 0 "a@x.edu" "123456").2.1 (by decide),
   (verifyOtp_error_precedence dbWithOtp 300001 "a@x.edu" "123456").2.2.1
     otpRowA (by decide) (by decide),
   (verifyOtp_error_precedence dbWithOtp 100 "a@x.edu" "999999").2.2.2.1
     otpRowA (by decide) (by decide) (by decide),
   (verifyOtp_error_precedence dbWithOtp 100 "a@x.edu" "123456").2.2.2.2
     otpRowA (by decide) (by decide) (by decide)⟩

/-!  C10. -/

/-- C10: a failed verification consumes nothing.  When the lookup finds a
code row but the call fails (expired or mismatched), the store is
unchanged, the call did not succeed, and re-submitting the stored code at
any time within its expiry still succeeds. -/
theorem verifyOtp_failure_preserves_code (db : DB) (now now2 : Nat)
    (email submitted : String) (rec : OtpRow)
    (hrec : latestOtpFor db.otps email = some rec)
    (hfail : now > rec.expiresAt ∨ rec.otp ≠ submitted) :
    (verifyOtp db now email submitted).1 = db ∧
    (verifyOtp db now email submitted).2.isOk = false ∧
    (¬ now2 > rec.expiresAt →
      (verifyOtp db now2 email rec.otp).2.isOk = true) := by
  have hres : verifyOtp db now email submitted = (db, .expired) ∨
      verifyOtp db now email submitted = (db, .mismatch) := by
    by_cases hexp : now > rec.expiresAt
    · exact Or.inl (verifyOtp_expired db now email submitted rec hrec hexp)
    · rcases hfail with h | h
      · exact absurd h hexp
      · exact Or.inr
          (verifyOtp_mismatch db now email submitted rec hrec hexp h)
  refine ⟨?_, ?_,
    fun hexp2 => (verifyOtp_success db now2 email rec hrec hexp2).2⟩
  · rcases hres with h | h <;> rw [h]
  · rcases hres with h | h <;> rw [h] <;> rfl

/-- Witness for C10 at a concrete input: a wrong submission leaves the
store unchanged. -/
theorem verifyOtp_failure_preserves_code_witness :
    (verifyOtp dbWithOtp 100 "a@x.edu" "999999").1 = dbWithOtp :=
  (verifyOtp_failure_preserves_code dbWithOtp 100 100 "a@x.edu" "999999"
    otpRowA (by decide) (Or.inr (by decide))).1

/-!  C4. -/

theorem find?_cons_ite {α : Type} (p : α → Bool) (a : α) (l : List α) :
    (a :: l).find? p = if p a then some a else l.find? p := by
  rw [List.find?_cons]
  cases h : p a <;> simp [h]

theorem find?_debit (l : List UserRow) (fromId : Nat) (u : UserRow)
    (h : l.find? (fun w => w.id == fromId) = some u) :
    (l.map (fun w => if w.id == fromId then { w with coins := w.coins - 10 }
        else w)).find? (fun w => w.id == fromId) =
      some { u with coins := u.coins - 10 } := by
  induction l with
  | nil => simp at h
  | cons x xs ih =>
    rw [find?_cons_ite] at h
    rw [List.map_cons, find?_cons_ite]
    cases hx : x.id == fromId with
    | true =>
      rw [if_pos hx] at h
      injection h with h
      subst h
      simp [hx]
    | false =>
      rw [if_neg (by simp [hx])] at h
      simp only [hx, Bool.false_eq_true, if_false]
      exact ih h

/-- C4: with the coin balance of the sender at hand, an approach with
balance at least 10 succeeds, debits exactly 10 coins and appends the
approach row; with balance below 10 it answers insufficient balance and
the whole store is untouched. -/
theorem approach_debits_or_rejects (db : DB) (fromId toId : Nat)
    (line : String) (u : UserRow)
    (hu : db.users.find? (fun w => w.id == fromId) = some u) :
    (10 ≤ u.coins →
      (approach db fromId toId line).2 = .ok ∧
      (approach db fromId toId line).1.users.find?
          (fun w => w.id == fromId) =
        some { u with coins := u.coins - 10 } ∧
      (approach db fromId toId line).1.approaches =
        db.approaches ++ [{ fromUserId := fromId, toUserId := toId,
                            requestLine := line }]) ∧
    (u.coins < 10 →
      (approach db fromId toId line).2 = .insufficientBalance ∧
      (approach db fromId toId line).1 = db) := by
  constructor
  · intro hc
    have hnc : ¬ u.coins < 10 := not_lt.mpr hc
    have happ : approach db fromId toId line =
        ({ db with
           users := db.users.map (fun w =>
             if w.id == fromId then { w with coins := w.coins - 10 }
             else w),
           approaches := db.approaches ++
             [{ fromUserId := fromId, toUserId := toId,
                requestLine := line }] }, .ok) := by
      simp [approach, hu, hnc]
    rw [happ]
    exact ⟨rfl, find?_debit db.users fromId u hu, rfl⟩
  · intro hc
    have happ : approach db fromId toId line =
        (db, .insufficientBalance) := by
      simp [approach, hu, hc]
    rw [happ]
    exact ⟨rfl, rfl⟩

/-- A sender holding exactly the approach cost. -/
def userRich : UserRow := { id := 1, email := "u@x.edu", coins := 10 }

/-- A sender one coin short of the approach cost. -/
def userPoor : UserRow := { id := 2, email := "v@x.edu", coins := 9 }

/-- A store with the two concrete senders. -/
def dbCoins : DB := { dbEmpty with users := [userRich, userPoor] }

/-- Witness for C4: balance 10 becomes 0 and the row is appended; balance
9 is rejected with the store untouched. -/
theorem approach_debits_or_rejects_witness :
    (approach dbCoins 1 2 "hi").2 = .ok ∧
    (approach dbCoins 1 2 "hi").1.users.find? (fun w => w.id == 1) =
      some { userRich with coins := 0 } ∧
    (approach dbCoins 2 1 "yo").2 = .insufficientBalance ∧
    (approach dbCoins 2 1 "yo").1 = dbCoins := by
  have h1 := (approach_debits_or_rejects dbCoins 1 2 "hi" userRich
    (by decide)).1 (by decide)
  have h2 := (approach_debits_or_rejects dbCoins 2 1 "yo" userPoor
    (by decide)).2 (by decide)
  have hcoins : ({ userRich with coins := userRich.coins - 10 } : UserRow) =
      { userRich with coins := 0 } := by decide
  exact ⟨h1.1, hcoins ▸ h1.2.1, h2.1, h2.2⟩

/-!  C5. -/

theorem roomKey_comm (a b : String) : roomKey a b = roomKey b a := by
  unfold roomKey
  rcases lt_trichotomy a b with h | h | h
  · rw [if_neg (lt_asymm h), if_pos h]
  · subst h
    rfl
  · rw [if_pos h, if_neg (lt_asymm h)]

/-- C5: the room key is symmetric in its two participants, and a socket
that joined the room as the pair (b, a) receives the broadcast of a
message sent from a to b. -/
theorem roomKey_symmetric_delivery (st : RelayState) (s a b body : String)
    (now : Nat) :
    roomKey a b = roomKey b a ∧
    Emit.receiveMessage s
        { id := st.db.nextMsgId, senderId := a, receiverId := b,
          message := body, createdAt := now } ∈
      (handleSendMessage (handleJoinRoom st s b a).1 a b body now true).2 := by
  refine ⟨roomKey_comm a b, ?_⟩
  simp only [handleJoinRoom, handleSendMessage, if_true]
  refine List.mem_map.mpr ⟨(s, roomKey b a), ?_, rfl⟩
  rw [List.mem_filter]
  refine ⟨List.mem_append_right _ (List.mem_singleton.mpr rfl), ?_⟩
  simpa using (roomKey_comm a b).symm

/-!  C6. -/

theorem insertByTime_perm (r : MessageRow) (l : List MessageRow) :
    (insertByTime r l).Perm (r :: l) := by
  induction l with
  | nil => simp [insertByTime]
  | cons x xs ih =>
    rw [insertByTime]
    by_cases hr : r.createdAt ≤ x.createdAt
    · rw [if_pos hr]
    · rw [if_neg hr]
      exact (ih.cons x).trans (List.Perm.swap r x xs)

theorem sortByTime_perm (l : List MessageRow) : (sortByTime l).Perm l := by
  induction l with
  | nil => simp [sortByTime]
  | cons x xs ih =>
    rw [sortByTime]
    exact (insertByTime_perm x (sortByTime xs)).trans (ih.cons x)

theorem insertByTime_pairwise (r : MessageRow) (l : List MessageRow)
    (h : l.Pairwise (fun a b => a.createdAt ≤ b.createdAt)) :
    (insertByTime r l).Pairwise (fun a b => a.createdAt ≤ b.createdAt) := by
  induction l with
  | nil => simp [insertByTime]
  | cons x xs ih =>
    rw [List.pairwise_cons] at h
    obtain ⟨hx, hxs⟩ := h
    rw [insertByTime]
    by_cases hr : r.createdAt ≤ x.createdAt
    · rw [if_pos hr]
      refine List.Pairwise.cons ?_ (List.Pairwise.cons hx hxs)
      intro c hc
      rcases List.mem_cons.mp hc with rfl | hc
      · exact hr
      · exact le_trans hr (hx c hc)
    · rw [if_neg hr]
      refine List.Pairwise.cons ?_ (ih hxs)
      intro c hc
      rcases List.mem_cons.mp
          ((insertByTime_perm r xs).mem_iff.mp hc) with rfl | hc
      · exact le_of_not_le hr
      · exact hx c hc

theorem sortByTime_pairwise (l : List MessageRow) :
    (sortByTime l).Pairwise (fun a b => a.createdAt ≤ b.createdAt) := by
  induction l with
  | nil => simp [sortByTime]
  | cons x xs ih =>
    rw [sortByTime]
    exact insertByTime_pairwise x (sortByTime xs) ih

theorem pairMatch_comm (r : MessageRow) (u o : String) :
    pairMatch r u o = pairMatch r o u := by
  unfold pairMatch
  exact Bool.or_comm _ _

/-- C6: the history of a pair is all stored messages matching the pair in
either direction, in ascending creation-time order, with no truncation:
it is a permutation of the untruncated matching rows, pairwise ordered by
time, and identical whichever way round the pair is given. -/
theorem history_sorted_and_complete (db : DB) (userId otherUserId : String) :
    (history db userId otherUserId).Pairwise
      (fun a b => a.createdAt ≤ b.createdAt) ∧
    (history db userId otherUserId).Perm
      (db.messages.filter (fun r => pairMatch r userId otherUserId)) ∧
    history db userId otherUserId = history db otherUserId userId := by
  refine ⟨sortByTime_pairwise _, sortByTime_perm _, ?_⟩
  unfold history
  rw [show (fun r => pairMatch r userId otherUserId) =
      (fun r => pairMatch r otherUserId userId) from
    funext fun r => pairMatch_comm r userId otherUserId]

/-!  C9. -/

/-- C9: the disconnect handler only logs.  The presence map, the room
subscriptions and the store are all unchanged, and nothing but the log
line is emitted — in particular no presence broadcast. -/
theorem disconnect_is_log_only (st : RelayState) :
    (handleDisconnect st).1.onlineUsers = st.onlineUsers ∧
    (handleDisconnect st).1.rooms = st.rooms ∧
    (handleDisconnect st).1.db = st.db ∧
    (handleDisconnect st).2 = [.logLine "User Disconnected"] ∧
    ∀ e ∈ (handleDisconnect st).2, ∀ users : List String,
      e ≠ .onlineUsersBroadcast users := by
  refine ⟨rfl, rfl, rfl, rfl, ?_⟩
  intro e he users
  rcases List.mem_singleton.mp he with rfl
  intro hcontra
  cases hcontra

/-- A concrete relay state with one registered identity. -/
def relay0 : RelayState :=
  { onlineUsers := [("u1", "s1")], rooms := [], db := dbEmpty }

/-- Witness for C9 at a concrete state: disconnect leaves the presence map
as it was and its one emission is not a presence broadcast. -/
theorem disconnect_is_log_only_witness :
    (handleDisconnect relay0).1.onlineUsers = [("u1", "s1")] ∧
    Emit.logLine "User Disconnected" ≠ Emit.onlineUsersBroadcast ["u1"] :=
  ⟨(disconnect_is_log_only relay0).1,
   (disconnect_is_log_only relay0).2.2.2.2 (.logLine "User Disconnected")
     (List.mem_singleton.mpr rfl) ["u1"]⟩

/-!  C7. -/

/-- C7 counterexample: a concrete request that passes validation but whose
email send fails is answered by the `server.js` route with a 500 error,
not with success — the route awaits the send inside its try block. -/
theorem sendOtp_delivery_failure_fails_request :
    (sendOtp dbEmpty 0 "a@x.edu" "123456" false).2 =
      .err 500 "Failed to send email. Check SMTP settings." ∧
    (sendOtp dbEmpty 0 "a@x.edu" "123456" false).2.isOk = false := by
  constructor <;> decide

/-- C7 amended: in `server.js` a delivery failure fails the request with a
500 error, but the stored code is not rolled back — the freshly inserted
row is still the one live row for the identity; in the `part_000` demo
variant the send is fire-and-forget, so the same delivery failure leaves
the response a success carrying `isNewUser`. -/
theorem sendOtp_delivery_failure_behavior (db : DB) (now : Nat)
    (email code : String) (h : email ≠ "") :
    (sendOtp db now email code false).2 =
      .err 500 "Failed to send email. Check SMTP settings." ∧
    (sendOtp db now email code false).1 = dbAfterIssue db now email code ∧
    (sendOtp db now email code false).1.otps.filter
        (fun r => r.email == email) = [issuedRow db now email code] ∧
    (sendOtpDemo db now email code false).2 =
      .ok { success := true,
            message := "OTP sent! (Demo Mode: Check Popup)",
            isNewUser := isNewEmail db email, otp := some code } := by
  have hs : sendOtp db now email code false =
      (dbAfterIssue db now email code,
       .err 500 "Failed to send email. Check SMTP settings.") := by
    simp [sendOtp, h]
  have hd : sendOtpDemo db now email code false =
      (dbAfterIssue db now email code,
       .ok { success := true,
             message := "OTP sent! (Demo Mode: Check Popup)",
             isNewUser := isNewEmail db email, otp := some code }) := by
    simp [sendOtpDemo, h]
  rw [hs, hd]
  exact ⟨rfl, rfl, otps_after_issue db now email code, rfl⟩

/-- Witness for the amended C7 at a concrete input. -/
theorem sendOtp_delivery_failure_behavior_witness :
    (sendOtp dbEmpty 5 "b@x.edu" "654321" false).1.otps.filter
        (fun r => r.email == "b@x.edu") =
      [issuedRow dbEmpty 5 "b@x.edu" "654321"] ∧
    (sendOtpDemo dbEmpty 5 "b@x.edu" "654321" false).2 =
      .ok { success := true,
            message := "OTP sent! (Demo Mode: Check Popup)",
            isNewUser := isNewEmail dbEmpty "b@x.edu",
            otp := some "654321" } :=
  ⟨(sendOtp_delivery_failure_behavior dbEmpty 5 "b@x.edu" "654321"
      (by decide)).2.2.1,
   (sendOtp_delivery_failure_behavior dbEmpty 5 "b@x.edu" "654321"
      (by decide)).2.2.2⟩

/-!  C8. -/

/-- C8: in the default variant (`server.js`, which has no demo echo), every
successful send-otp response body is exactly
`{success, message, isNewUser}` — the `otp` field is absent, so the
generated code value never appears in the response. -/
theorem sendOtp_response_hides_code (db : DB) (now : Nat)
    (email code : String) (deliveryOk : Bool) (resp : SendOtpResponse)
    (h : (sendOtp db now email code deliveryOk).2 = .ok resp) :
    resp = { success := true,
             message := "OTP sent successfully to your email!",
             isNewUser := isNewEmail db email, otp := none } ∧
    resp.otp = none := by
  unfold sendOtp at h
  by_cases he : email = ""
  · rw [if_pos he] at h
    simp at h
  · rw [if_neg he] at h
    cases deliveryOk with
    | false =>
      rw [if_neg (by simp)] at h
      simp at h
    | true =>
      rw [if_pos rfl] at h
      have hr : resp =
          { success := true,
            message := "OTP sent successfully to your email!",
            isNewUser := isNewEmail db email, otp := none } := by
        injection h with h
        exact h.symm
      exact ⟨hr, by rw [hr]⟩

/-- Witness for C8 at a concrete input: the successful concrete response
carries no code value. -/
theorem sendOtp_response_hides_code_witness :
    (sendOtp dbEmpty 0 "a@x.edu" "123456" true).2 =
      .ok { success := true,
            message := "OTP sent successfully to your email!",
            isNewUser := true, otp := none } ∧
    ({ success := true,
       message := "OTP sent successfully to your email!",
       isNewUser := true, otp := none } : SendOtpResponse).otp = none :=
  ⟨by decide,
   (sendOtp_response_hides_code dbEmpty 0 "a@x.edu" "123456" true
     { success := true,
       message := "OTP sent successfully to your email!",
       isNewUser := true, otp := none } (by decide)).2⟩

end AfterClasses
